import Mathlib

/-
Verification development for scripts/aws_sso.py (aws-fzf repository).

The script reads an AWS config file (INI format, parsed by Python's
configparser with its default settings: strict=True, default_section
"DEFAULT", delimiters "=" and ":", full-line comment markers "#" and ";",
no inline comments, empty_lines_in_values=True, optionxform=str.lower),
filters the sections that describe SSO profiles and prints them as JSON.

The embedding below models, from the source and the documented semantics of
the Python standard library it calls:
  - the Python string primitives the code relies on (strip, rstrip, lower,
    startswith, slicing), over the character list of a string; they agree
    with Python on ASCII input, which is the fragment this file works in
    (Python's definitions of whitespace and lowercase extend to non-ASCII
    characters, configparser interpolates values containing a percent sign
    at lookup time, and real files may hold undecodable bytes; none of the
    claims depend on those inputs, so values are assumed percent-free,
    ASCII-classified and decoded, as noted on the definitions concerned);
  - configparser's line reader (RawConfigParser._read) as a fold over the
    lines of the file: comment and blank lines, indentation-based
    continuation lines, section headers, option lines, the strict duplicate
    checks, the deferred ParsingError, and the final join of multi-line
    values;
  - the lookup semantics of a parsed document: sections() excludes the
    DEFAULT section, and both membership tests and value lookups on a
    section fall back to the keys of the DEFAULT section;
  - the process environment: environment variables, the home directory
    used by os.path.expanduser, and a read-only file system mapping paths
    to files, each file carrying its lines and whether opening it succeeds
    (os.path.exists can be true for a file that open() cannot read;
    ConfigParser.read silently skips files it cannot open);
  - json.dumps at the two value shapes the program serializes: the compact
    form used for the empty result and the indent=2 form used otherwise.

Error messages carry the same data as the configparser exceptions they
model (kind, section or option name, line number, offending line) but their
exact wording is abbreviated relative to CPython's text.
-/

namespace AwsSso

/-! ## Python string primitives over character lists -/

/-- Whitespace per Python's str.strip and the regex class \s (ASCII part). -/
def pyIsWs (c : Char) : Bool :=
  c = ' ' ∨ c = '\t' ∨ c = '\n' ∨ c = '\x0d' ∨ c = '\x0b' ∨ c = '\x0c'

/-- Remove trailing whitespace from a character list (Python str.rstrip). -/
def rstripL (l : List Char) : List Char :=
  (l.reverse.dropWhile pyIsWs).reverse

/-- Remove leading and trailing whitespace (Python str.strip). -/
def stripL (l : List Char) : List Char :=
  rstripL (l.dropWhile pyIsWs)

/-- Python str.strip on a String. -/
def pyStrip (s : String) : String := String.mk (stripL s.data)

/-- Python str.rstrip on a String. -/
def pyRstrip (s : String) : String := String.mk (rstripL s.data)

/-- Python str.lower, character by character (ASCII fragment). -/
def pyLower (s : String) : String := String.mk (s.data.map Char.toLower)

/-- Python str.startswith: the candidate is a prefix of the string. -/
def pyStartsWith (s pre : String) : Bool := pre.data.isPrefixOf s.data

/-- Python slicing s[n:] (by code point). -/
def pyDrop (s : String) (n : Nat) : String := String.mk (s.data.drop n)

/-- Number of leading whitespace characters of a line: the start position of
the first regex \S match, used by configparser for the indent level. -/
def leadingWsCount (l : List Char) : Nat := (l.takeWhile pyIsWs).length

/-- Remove trailing slash characters (Python str.rstrip with argument "/",
used by os.path.expanduser on the home directory). -/
def rstripSlashL (l : List Char) : List Char :=
  (l.reverse.dropWhile (fun c => c = '/')).reverse

/-! ## Association lists: Python dict lookup (first match; the dicts built
by a strict configparser read never hold a key twice) -/

/-- Lookup in an association list, first match. -/
def lookupA {α : Type} (l : List (String × α)) (k : String) : Option α :=
  match l with
  | [] => none
  | p :: rest => if p.1 = k then some p.2 else lookupA rest k

/-- Update the value of a key if present, otherwise append the binding at
the end: Python dict assignment d[k] = v, which keeps the original
insertion position of an existing key. -/
def setA {α : Type} (l : List (String × α)) (k : String) (v : α) :
    List (String × α) :=
  match l with
  | [] => [(k, v)]
  | p :: rest => if p.1 = k then (k, v) :: rest else p :: setA rest k v

/-! ## configparser._read: errors, state, one line, the whole file -/

/-- Errors raised by a strict configparser read. DuplicateSectionError,
DuplicateOptionError and MissingSectionHeaderError abort the read at the
offending line; ParsingError collects every malformed line and is raised
after the last line. -/
inductive ParseErr where
  | missingSectionHeader (lineno : Nat) (line : String)
  | duplicateSection (sectName : String) (lineno : Nat)
  | duplicateOption (sectName optName : String) (lineno : Nat)
  | parsingError (badLines : List (Nat × String))
deriving DecidableEq

/-- Target of the cursect pointer of configparser._read: the DEFAULT
section's storage or a named regular section. -/
inductive Cursect where
  | defaults
  | sect (name : String)
deriving DecidableEq

/-- Name under which configparser registers duplicate-option checks for the
current section: the literal DEFAULT for the defaults storage. -/
def curKey : Cursect → String
  | .defaults => "DEFAULT"
  | .sect name => name

/-- State threaded through configparser._read. Option values are stored as
the list of their (stripped) value lines; the final join happens once the
whole file is read. elements_added of the Python code is split into the
section-name part and the (section, option) part. -/
structure ReadState where
  defaults : List (String × List String)
  sections : List (String × List (String × List String))
  cur : Option Cursect
  optname : Option String
  indentLevel : Nat
  addedSections : List String
  addedOpts : List (String × String)
  badLines : List (Nat × String)
deriving DecidableEq

/-- Initial reader state. -/
def initState : ReadState :=
  { defaults := [], sections := [], cur := none, optname := none,
    indentLevel := 0, addedSections := [], addedOpts := [], badLines := [] }

/-- Append one more value line to option o of the kvs of one section. -/
def appendValL (kvs : List (String × List String)) (o v : String) :
    List (String × List String) :=
  kvs.map fun p => if p.1 = o then (p.1, p.2 ++ [v]) else p

/-- Apply an update to the storage the cursect pointer designates. -/
def updCur (st : ReadState) (tgt : Cursect)
    (f : List (String × List String) → List (String × List String)) :
    ReadState :=
  match tgt with
  | .defaults => { st with defaults := f st.defaults }
  | .sect name =>
      { st with sections :=
          st.sections.map fun p => if p.1 = name then (p.1, f p.2) else p }

/-- cursect[optname].append(value) of the Python code. -/
def appendCur (st : ReadState) (tgt : Cursect) (o v : String) : ReadState :=
  updCur st tgt (fun kvs => appendValL kvs o v)

/-- cursect[optname] = [optval] of the Python code. -/
def setCur (st : ReadState) (tgt : Cursect) (o : String) (v : String) :
    ReadState :=
  updCur st tgt (fun kvs => setA kvs o [v])

/-- Python truthiness of the optname variable: None and the empty string
are falsy. -/
def optnameTruthy : Option String → Bool
  | none => false
  | some s => s ≠ ""

/-- Section header recognition: configparser's SECTCRE regex
\[(?P<header>.+)\] applied with re.match to the stripped line. The header
is everything between the opening bracket and the last closing bracket
(greedy .+, at least one character); text after that bracket is ignored by
re.match. -/
def matchHeaderL (value : List Char) : Option String :=
  match value with
  | '[' :: rest =>
      match lastIdxOf ']' rest with
      | some j => if 1 ≤ j then some (String.mk (rest.take j)) else none
      | none => none
  | _ => none
where
  /-- Index of the last occurrence of a character. -/
  lastIdxOf (c : Char) : List Char → Option Nat
    | [] => none
    | a :: l =>
        match lastIdxOf c l with
        | some j => some (j + 1)
        | none => if a = c then some 0 else none

/-- Index of the first delimiter, = or : (configparser's default
delimiters, found by the non-greedy option regex). -/
def firstDelimIdx : List Char → Option Nat
  | [] => none
  | a :: l =>
      if a = '=' ∨ a = ':' then some 0
      else (firstDelimIdx l).map (· + 1)

/-- Option line recognition: configparser's option regex
(?P<option>.*?)\s*(?P<vi>=|:)\s*(?P<value>.*)$ on the stripped line,
followed by the rstrip of the option name and the strip of the value the
Python code performs. Returns (raw option name, value). -/
def matchOptionL (value : List Char) : Option (String × String) :=
  (firstDelimIdx value).map fun i =>
    (String.mk (rstripL (value.take i)), String.mk (stripL (value.drop (i + 1))))

/-- Is the stripped line a full-line comment (first character one of the
default comment markers # and ;)? -/
def isCommentL (stripped : List Char) : Bool :=
  match stripped with
  | c :: _ => c = '#' ∨ c = ';'
  | [] => false

/-- One iteration of the line loop of configparser._read, for the line with
number lineno (1-based). Mirrors, in order: comment stripping, the blank
line case (which under empty_lines_in_values appends an empty value line to
the current option), the continuation-line test against the current indent
level, the section-header match with the strict duplicate-section check and
the special casing of the DEFAULT section, the missing-section-header
check, and the option match with the strict duplicate-option check, a
malformed line being recorded for the deferred ParsingError. -/
def readLine (st : ReadState) (lineno : Nat) (line : String) :
    Except ParseErr ReadState :=
  let stripped := stripL line.data
  let isComment := isCommentL stripped
  let value := if isComment then [] else stripped
  if value = [] then
    if isComment then .ok st
    else
      match st.cur, st.optname with
      | some tgt, some o =>
          if o ≠ "" then .ok (appendCur st tgt o "") else .ok st
      | _, _ => .ok st
  else
    let curIndent := leadingWsCount line.data
    if optnameTruthy st.optname ∧ st.cur.isSome ∧ st.indentLevel < curIndent then
      match st.cur, st.optname with
      | some tgt, some o => .ok (appendCur st tgt o (String.mk value))
      | _, _ => .ok st
    else
      let st := { st with indentLevel := curIndent }
      match matchHeaderL value with
      | some sectName =>
          if sectName ∈ st.sections.map Prod.fst then
            if sectName ∈ st.addedSections then
              .error (.duplicateSection sectName lineno)
            else
              .ok { st with cur := some (.sect sectName), optname := none,
                            addedSections := st.addedSections ++ [sectName] }
          else if sectName = "DEFAULT" then
            .ok { st with cur := some .defaults, optname := none }
          else
            .ok { st with
                  sections := st.sections ++ [(sectName, [])],
                  cur := some (.sect sectName), optname := none,
                  addedSections := st.addedSections ++ [sectName] }
      | none =>
          match st.cur with
          | none => .error (.missingSectionHeader lineno line)
          | some tgt =>
              match matchOptionL value with
              | some (optRaw, optval) =>
                  let st :=
                    if optRaw = "" then
                      { st with badLines := st.badLines ++ [(lineno, line)] }
                    else st
                  let opt := pyLower optRaw
                  if (curKey tgt, opt) ∈ st.addedOpts then
                    .error (.duplicateOption (curKey tgt) opt lineno)
                  else
                    .ok { setCur st tgt opt optval with
                          optname := some opt,
                          addedOpts := st.addedOpts ++ [(curKey tgt, opt)] }
              | none =>
                  .ok { st with badLines := st.badLines ++ [(lineno, line)] }

/-- Fold of readLine over the lines of the file, numbering from 1. -/
def readLines : ReadState → Nat → List String → Except ParseErr ReadState
  | st, _, [] => .ok st
  | st, n, l :: ls =>
      match readLine st n l with
      | .error e => .error e
      | .ok st' => readLines st' (n + 1) ls

/-! ## The parsed document and its lookup semantics -/

/-- Result of a successful configparser read: the key-value pairs of the
DEFAULT section and the regular sections in file order, every multi-line
value already joined. -/
structure ParsedConfig where
  defaults : List (String × String)
  sections : List (String × List (String × String))
deriving DecidableEq

/-- configparser._join_multiline_values: the value lines of an option are
joined with a newline and the result right-stripped. -/
def joinVal (ls : List String) : String :=
  pyRstrip (joinNL ls)
where
  joinNL : List String → String
    | [] => ""
    | [a] => a
    | a :: rest => a ++ "\n" ++ joinNL rest

/-- End of configparser._read: raise the deferred ParsingError if any line
was malformed, otherwise join the value lines of every option. -/
def finishRead (st : ReadState) : Except ParseErr ParsedConfig :=
  if st.badLines ≠ [] then .error (.parsingError st.badLines)
  else
    .ok { defaults := st.defaults.map fun p => (p.1, joinVal p.2),
          sections := st.sections.map fun p =>
            (p.1, p.2.map fun q => (q.1, joinVal q.2)) }

/-- Parse the lines of a config file: ConfigParser.read on an openable
file. -/
def configRead (lines : List String) : Except ParseErr ParsedConfig :=
  match readLines initState 1 lines with
  | .error e => .error e
  | .ok st => finishRead st

/-- Value of a key of a section, config[sectName].get(key, None): the
section's own binding if any, otherwise the DEFAULT section's binding,
otherwise none. The program only queries sections returned by sections()
and already lowercase keys, so the optionxform and missing-section branches
of the library never fire on its calls and are not modelled. Values are
assumed percent-free so that BasicInterpolation returns them unchanged. -/
def sectGet (cfg : ParsedConfig) (sectName key : String) : Option String :=
  match lookupA cfg.sections sectName with
  | some kv =>
      match lookupA kv key with
      | some v => some v
      | none => lookupA cfg.defaults key
  | none => lookupA cfg.defaults key

/-- Key membership of a section, key in config[sectName]: true when the
section itself or the DEFAULT section binds the key. -/
def hasOption (cfg : ParsedConfig) (sectName key : String) : Bool :=
  match lookupA cfg.sections sectName with
  | some kv => (lookupA kv key).isSome || (lookupA cfg.defaults key).isSome
  | none => (lookupA cfg.defaults key).isSome

/-! ## The profile extraction loop of parse_sso_profiles (lines 44-72) -/

/-- Record built for one SSO profile (lines 62-68 of the source): the
profile name and the four optional SSO fields, None when the key is
neither in the section nor in the DEFAULT section. -/
structure SsoProfile where
  profile : String
  sso_account_id : Option String
  sso_role_name : Option String
  sso_region : Option String
  sso_start_url : Option String
deriving DecidableEq

/-- Candidate profile name of a section (lines 50-55): the name default for
the section named exactly default, the remainder after the 8-character
slice for a name starting with the literal profile-plus-space, otherwise
none (the section is skipped). -/
def profileNameOf (sectName : String) : Option String :=
  if sectName = "default" then some "default"
  else if pyStartsWith sectName "profile " then some (pyDrop sectName 8)
  else none

/-- The dict literal of lines 62-68: each SSO field is the get of the
corresponding key with default None. -/
def mkSsoProfile (cfg : ParsedConfig) (sectName pn : String) : SsoProfile :=
  { profile := pn,
    sso_account_id := sectGet cfg sectName "sso_account_id",
    sso_role_name := sectGet cfg sectName "sso_role_name",
    sso_region := sectGet cfg sectName "sso_region",
    sso_start_url := sectGet cfg sectName "sso_start_url" }

/-- Body of the for loop over config.sections(): skip a section whose name
is neither default nor profile-prefixed, skip a section without the
sso_start_url key, otherwise append the record. -/
def extractBody (cfg : ParsedConfig) (acc : List SsoProfile)
    (sectName : String) : List SsoProfile :=
  match profileNameOf sectName with
  | none => acc
  | some pn =>
      if hasOption cfg sectName "sso_start_url" then
        acc ++ [mkSsoProfile cfg sectName pn]
      else acc

/-- The whole loop of lines 44-72: fold of the body over the section names
in file order (config.sections() excludes the DEFAULT section), starting
from the empty list. -/
def extractSsoProfiles (cfg : ParsedConfig) : List SsoProfile :=
  (cfg.sections.map Prod.fst).foldl (extractBody cfg) []

/-- One section's contribution to the result, as an Option: the functional
form of the loop body, used to characterize the fold. -/
def extractStep (cfg : ParsedConfig) (sectName : String) : Option SsoProfile :=
  match profileNameOf sectName with
  | none => none
  | some pn =>
      if hasOption cfg sectName "sso_start_url" then
        some (mkSsoProfile cfg sectName pn)
      else none

/-! ## Process environment: path resolution, file system, entry point -/

/-- A file of the modelled file system: its decoded lines, and whether
open() succeeds on it (a path can exist for os.path.exists and still fail
to open, for instance for lack of read permission or because it is a
directory; ConfigParser.read silently skips such paths). -/
structure FileEntry where
  readable : Bool
  lines : List String
deriving DecidableEq

/-- Process environment of one invocation: the environment variables, the
home directory os.path.expanduser resolves the tilde to, and the file
system. -/
structure World where
  env : List (String × String)
  home : String
  fs : List (String × FileEntry)
deriving DecidableEq

/-- os.path.expanduser: a path not starting with a tilde is unchanged; a
path whose tilde component is bare (the path is exactly the tilde, or a
slash follows it) is expanded with the home directory, the home directory
losing its trailing slashes and the result defaulting to the root path if
empty. A tilde followed by a user name is resolved through the pwd
database, not modelled here; the unknown-user behavior, returning the path
unchanged, is used. -/
def expanduser (home path : String) : String :=
  match path.data with
  | '~' :: rest =>
      if rest = [] ∨ rest.head? = some '/' then
        let res := rstripSlashL home.data ++ rest
        if res = [] then "/" else String.mk res
      else path
  | _ => path

/-- Path resolution of lines 29-30: an explicit config_file argument is
used as given; otherwise the AWS_CONFIG_FILE environment variable, or the
default path under the home directory, is read and tilde-expanded. -/
def resolveConfigFile (config_file : Option String) (w : World) : String :=
  match config_file with
  | some p => p
  | none => expanduser w.home ((lookupA w.env "AWS_CONFIG_FILE").getD "~/.aws/config")

/-- os.path.exists (line 32). -/
def osPathExists (w : World) (p : String) : Bool :=
  (lookupA w.fs p).isSome

/-- ConfigParser.read on a path (line 39): a path that is missing or that
cannot be opened is silently skipped, leaving the parser empty; an openable
file is read line by line. -/
def configReadFile (w : World) (p : String) : Except ParseErr ParsedConfig :=
  match lookupA w.fs p with
  | none => .ok { defaults := [], sections := [] }
  | some entry =>
      if entry.readable then configRead entry.lines
      else .ok { defaults := [], sections := [] }

/-- Observable outcome of a process run: exit code, lines printed to
standard output and to standard error, and the file writes performed (the
script performs none; the field records that the source contains no write
call). -/
structure ProcOut where
  exitCode : Nat
  stdout : List String
  stderr : List String
  fsWrites : List (String × FileEntry)
deriving DecidableEq

/-- Message of line 33. -/
def notFoundMsg (p : String) : String :=
  "ERROR: AWS config file not found: " ++ p

/-- Rendering of the modelled configparser exceptions: same data as the
CPython messages (kind, names, line numbers, offending lines), abbreviated
wording. -/
def renderErr : ParseErr → String
  | .missingSectionHeader n l =>
      "File contains no section headers. line " ++ toString n ++ ": " ++ l
  | .duplicateSection name n =>
      "[line " ++ toString n ++ "]: section " ++ name ++ " already exists"
  | .duplicateOption s o n =>
      "[line " ++ toString n ++ "]: option " ++ o ++ " in section " ++ s ++
        " already exists"
  | .parsingError ls => "Source contains parsing errors:" ++ renderBadLines ls
where
  renderBadLines : List (Nat × String) → String
    | [] => ""
    | (n, l) :: rest =>
        " [line " ++ toString n ++ "]: " ++ l ++ renderBadLines rest

/-- Message of line 41. -/
def parseFailMsg (e : ParseErr) : String :=
  "ERROR: Failed to parse config file: " ++ renderErr e

/-- parse_sso_profiles (lines 19-72): resolve the path; if it does not
exist, print the not-found message to standard error and exit 1; parse it,
any configparser exception being caught, printed to standard error and
ending the process with exit 1; otherwise run the extraction loop. An
error value carries the whole process outcome, an ok value the returned
list. -/
def parse_sso_profiles (config_file : Option String) (w : World) :
    Except ProcOut (List SsoProfile) :=
  if osPathExists w (resolveConfigFile config_file w) = false then
    .error { exitCode := 1, stdout := [],
             stderr := [notFoundMsg (resolveConfigFile config_file w)],
             fsWrites := [] }
  else
    match configReadFile w (resolveConfigFile config_file w) with
    | .error e =>
        .error { exitCode := 1, stdout := [], stderr := [parseFailMsg e],
                 fsWrites := [] }
    | .ok cfg => .ok (extractSsoProfiles cfg)

/-! ## json.dumps at the shapes the program serializes -/

/-- JSON value of one field of a profile record: a string or null. -/
inductive JVal where
  | null
  | str (s : String)
deriving DecidableEq

/-- A JSON object with string-or-null fields, in key order. -/
abbrev JObj : Type := List (String × JVal)

/-- json.dumps escaping of one character (ensure_ascii=True): the named
escapes, a four-digit lowercase unicode escape for other characters
outside the printable ASCII range (with a surrogate pair beyond the basic
plane), the character itself otherwise. -/
def escChar (c : Char) : String :=
  if c = '"' then "\\\""
  else if c = '\\' then "\\\\"
  else if c = '\n' then "\\n"
  else if c = '\x0d' then "\\r"
  else if c = '\t' then "\\t"
  else if c = '\x08' then "\\b"
  else if c = '\x0c' then "\\f"
  else if c.toNat < 32 ∨ 126 < c.toNat then uEsc c.toNat
  else String.mk [c]
where
  hexDigit (n : Nat) : Char :=
    if n < 10 then Char.ofNat (48 + n) else Char.ofNat (87 + n)
  hex4 (n : Nat) : String :=
    String.mk [hexDigit (n / 4096 % 16), hexDigit (n / 256 % 16),
               hexDigit (n / 16 % 16), hexDigit (n % 16)]
  uEsc (n : Nat) : String :=
    if n ≤ 0xffff then "\\u" ++ hex4 n
    else
      "\\u" ++ hex4 (0xd800 + (n - 0x10000) / 0x400) ++
        "\\u" ++ hex4 (0xdc00 + (n - 0x10000) % 0x400)

/-- json.dumps of a string value. -/
def dumpStr (s : String) : String :=
  "\"" ++ String.join (s.data.map escChar) ++ "\""

/-- json.dumps of a string-or-null value. -/
def dumpJVal : JVal → String
  | .null => "null"
  | .str s => dumpStr s

/-- json.dumps of the top-level object without indent (line 82): default
separators, so a comma-space between items and a colon-space after a key;
an empty list prints as a bare bracket pair. -/
def dumpTopCompact (ps : List JObj) : String :=
  "\x7b" ++ dumpStr "profiles" ++ ": [" ++
    ", ".intercalate (ps.map dumpObjCompact) ++ "]\x7d"
where
  dumpObjCompact (o : JObj) : String :=
    "\x7b" ++
      ", ".intercalate (o.map fun kv => dumpStr kv.1 ++ ": " ++ dumpJVal kv.2) ++
      "\x7d"

/-- json.dumps of the top-level object with indent=2 (line 87): every item
of a non-empty container on its own line, two more spaces of indentation
per level, the comma at the end of the previous line. -/
def dumpTopIndent2 (ps : List JObj) : String :=
  if ps = [] then "\x7b\n  " ++ dumpStr "profiles" ++ ": []\n\x7d"
  else
    "\x7b\n  " ++ dumpStr "profiles" ++ ": [\n" ++
      ",\n".intercalate (ps.map fun o => "    " ++ dumpObjIndent o) ++
      "\n  ]\n\x7d"
where
  dumpObjIndent (o : JObj) : String :=
    if o = [] then "\x7b\x7d"
    else
      "\x7b\n" ++
        ",\n".intercalate
          (o.map fun kv => "      " ++ dumpStr kv.1 ++ ": " ++ dumpJVal kv.2) ++
        "\n    \x7d"

/-- JSON field for an optional string: null for None (json.dumps maps
Python None to null, never to an empty string, never omitting the key). -/
def jopt : Option String → JVal
  | none => .null
  | some v => .str v

/-- JSON object serialized for one record: exactly the five keys of the
dict literal of lines 62-68, in that order. -/
def profileToJObj (r : SsoProfile) : JObj :=
  [("profile", .str r.profile),
   ("sso_account_id", jopt r.sso_account_id),
   ("sso_role_name", jopt r.sso_role_name),
   ("sso_region", jopt r.sso_region),
   ("sso_start_url", jopt r.sso_start_url)]

/-- main (lines 75-87): run parse_sso_profiles with no argument; print the
fixed compact empty object and exit 0 on an empty result, the indent=2
document and exit 0 (by falling off the end) otherwise. -/
def main (w : World) : ProcOut :=
  match parse_sso_profiles none w with
  | .error out => out
  | .ok profiles =>
      if profiles = [] then
        { exitCode := 0, stdout := [dumpTopCompact []], stderr := [],
          fsWrites := [] }
      else
        { exitCode := 0, stdout := [dumpTopIndent2 (profiles.map profileToJObj)],
          stderr := [], fsWrites := [] }

/-! ## Decidability of Except equality, for concrete evaluations -/

instance exceptDecEq {ε α : Type} [DecidableEq ε] [DecidableEq α] :
    DecidableEq (Except ε α)
  | .ok x, .ok y =>
      if h : x = y then .isTrue (by rw [h])
      else .isFalse (by intro hc; cases hc; exact h rfl)
  | .ok _, .error _ => .isFalse (by intro hc; cases hc)
  | .error _, .ok _ => .isFalse (by intro hc; cases hc)
  | .error e, .error f =>
      if h : e = f then .isTrue (by rw [h])
      else .isFalse (by intro hc; cases hc; exact h rfl)

/-! ## Concrete inputs used by the counterexamples and witnesses -/

/-- Document with one profile section carrying an empty sso_start_url. -/
def cfgEmptyUrl : ParsedConfig :=
  { defaults := [], sections := [("profile x", [("sso_start_url", "")])] }

/-- Document with one SSO profile section. -/
def cfgOneSso : ParsedConfig :=
  { defaults := [], sections := [("profile x", [("sso_start_url", "u")])] }

/-- Document whose DEFAULT section holds the SSO keys. -/
def cfgDefaulted : ParsedConfig :=
  { defaults := [("sso_start_url", "https://u"), ("sso_region", "eu")],
    sections := [("profile p", [("sso_account_id", "1")])] }

/-- World whose config file repeats a section name. -/
def wDup : World :=
  { env := [("AWS_CONFIG_FILE", "/cfg")], home := "/h",
    fs := [("/cfg",
      ⟨true, ["[profile a]", "sso_start_url = u",
              "[profile a]", "sso_start_url = v"]⟩)] }

/-- World whose config file exists but cannot be opened. -/
def wUnreadable : World :=
  { env := [("AWS_CONFIG_FILE", "/cfg")], home := "/h",
    fs := [("/cfg", ⟨false, ["[profile x]", "sso_start_url = u"]⟩)] }

/-- World with no file at the resolved path. -/
def wMissing : World :=
  { env := [("AWS_CONFIG_FILE", "/cfg")], home := "/h", fs := [] }

/-- World whose config file is empty. -/
def wEmptyFile : World :=
  { env := [("AWS_CONFIG_FILE", "/cfg")], home := "/h",
    fs := [("/cfg", ⟨true, []⟩)] }

/-- World whose config file has content before any section header. -/
def wBadFile : World :=
  { env := [("AWS_CONFIG_FILE", "/cfg")], home := "/h",
    fs := [("/cfg", ⟨true, ["no header"]⟩)] }

/-- World with one SSO profile in its config file. -/
def wOne : World :=
  { env := [("AWS_CONFIG_FILE", "/cfg")], home := "/home/u",
    fs := [("/cfg", ⟨true, ["[profile x]", "sso_start_url = u"]⟩)] }

/-- Same observable inputs as wOne, with an unrelated extra environment
variable and an unrelated extra file. -/
def wTwo : World :=
  { env := [("AWS_CONFIG_FILE", "/cfg"), ("OTHER", "1")], home := "/home/u",
    fs := [("/other", ⟨true, ["junk"]⟩),
           ("/cfg", ⟨true, ["[profile x]", "sso_start_url = u"]⟩)] }

/-- World with no tilde anywhere, for the resolution counterexample. -/
def wPlain : World := { env := [], home := "/home/u", fs := [] }

/-- Reader state as it stands after the first three lines of the wDup file:
section profile a registered with its option, the reader inside it. -/
def stRepeat : ReadState :=
  { defaults := [],
    sections := [("profile a", [("sso_start_url", ["u"])])],
    cur := some (.sect "profile a"),
    optname := some "sso_start_url",
    indentLevel := 0,
    addedSections := ["profile a"],
    addedOpts := [("profile a", "sso_start_url")],
    badLines := [] }

/-! ## Helper lemmas -/

theorem lookupA_mem {α : Type} (l : List (String × α)) (k : String) (v : α)
    (h : lookupA l k = some v) : (k, v) ∈ l := by
  induction l with
  | nil => cases h
  | cons p rest ih =>
      unfold lookupA at h
      by_cases hk : p.1 = k
      · rw [if_pos hk] at h
        cases h
        cases p
        cases hk
        exact List.mem_cons_self _ _
      · rw [if_neg hk] at h
        exact List.mem_cons_of_mem _ (ih h)

theorem extractBody_eq (cfg : ParsedConfig) (acc : List SsoProfile)
    (n : String) :
    extractBody cfg acc n =
      match extractStep cfg n with
      | none => acc
      | some r => acc ++ [r] := by
  unfold extractBody extractStep
  cases profileNameOf n with
  | none => rfl
  | some pn => by_cases h : hasOption cfg n "sso_start_url" = true <;> simp [h]

theorem extract_fold_eq (cfg : ParsedConfig) (l : List String) :
    ∀ acc, l.foldl (extractBody cfg) acc = acc ++ l.filterMap (extractStep cfg) := by
  induction l with
  | nil => intro acc; simp
  | cons x xs ih =>
      intro acc
      rw [List.foldl_cons, ih, extractBody_eq]
      cases h : extractStep cfg x <;> simp [List.filterMap_cons, h]

theorem mem_extract_iff (cfg : ParsedConfig) (r : SsoProfile) :
    r ∈ extractSsoProfiles cfg ↔
      ∃ n, n ∈ cfg.sections.map Prod.fst ∧ extractStep cfg n = some r := by
  unfold extractSsoProfiles
  rw [extract_fold_eq]
  simp [List.mem_filterMap]

/-! ## Claims -/

/-- C1 (counterexample): the claim requires a record if and only if the
source section holds a NON-EMPTY sso_start_url; but the code tests key
presence only, so the file whose single section sets sso_start_url to the
empty string still produces a record (with the empty string as the value),
falsifying the only-if direction for non-empty markers. -/
theorem claim1_counterexample :
    configRead ["[profile x]", "sso_start_url ="] = .ok cfgEmptyUrl ∧
    lookupA (cfgEmptyUrl.sections.map Prod.snd).head! "sso_start_url" = some "" ∧
    extractSsoProfiles cfgEmptyUrl =
      [{ profile := "x", sso_account_id := none, sso_role_name := none,
         sso_region := none, sso_start_url := some "" }] := by
  decide

/-- C1 (amended): a record appears in the result exactly for the sections
whose name classifies as a profile (default, or profile-prefixed) and
which contain an sso_start_url key — possibly with an empty value, and
possibly inherited from the DEFAULT section; every record arises from such
a section. -/
theorem claim1_record_iff_marker (cfg : ParsedConfig) :
    (∀ n pn, n ∈ cfg.sections.map Prod.fst → profileNameOf n = some pn →
        hasOption cfg n "sso_start_url" = true →
        mkSsoProfile cfg n pn ∈ extractSsoProfiles cfg) ∧
    (∀ r, r ∈ extractSsoProfiles cfg →
        ∃ n, n ∈ cfg.sections.map Prod.fst ∧ profileNameOf n = some r.profile ∧
          hasOption cfg n "sso_start_url" = true ∧
          r = mkSsoProfile cfg n r.profile) := by
  constructor
  · intro n pn hmem hpn hha
    rw [mem_extract_iff]
    refine ⟨n, hmem, ?_⟩
    unfold extractStep
    rw [hpn]
    simp [hha]
  · intro r hr
    rw [mem_extract_iff] at hr
    obtain ⟨n, hmem, hstep⟩ := hr
    unfold extractStep at hstep
    cases hpn : profileNameOf n with
    | none => rw [hpn] at hstep; cases hstep
    | some pn =>
        rw [hpn] at hstep
        dsimp only at hstep
        by_cases hha : hasOption cfg n "sso_start_url" = true
        · rw [if_pos hha] at hstep
          cases hstep
          exact ⟨n, hmem, hpn, hha, rfl⟩
        · rw [if_neg hha] at hstep
          cases hstep

/-- C1 (witness): the amended theorem applied to the one-profile document. -/
theorem claim1_witness :
    mkSsoProfile cfgOneSso "profile x" "x" ∈ extractSsoProfiles cfgOneSso :=
  (claim1_record_iff_marker cfgOneSso).1 "profile x" "x"
    (by decide) (by decide) (by decide)

/-- C4: the candidate profile name of a section is default for the section
named exactly default; for a name starting with the 8-character literal
profile-plus-space it is the remainder after that prefix (recomposing the
prefix with the remainder gives the section name back); every other
section name is skipped — in particular an sso-session section — and every
record of the result originates in a section whose name classifies. -/
theorem claim4_section_name_classifier :
    (∀ s : String, s = "default" → profileNameOf s = some "default") ∧
    (∀ s : String, s ≠ "default" → pyStartsWith s "profile " = true →
        profileNameOf s = some (pyDrop s 8) ∧
        "profile ".data ++ (pyDrop s 8).data = s.data) ∧
    (∀ s : String, s ≠ "default" → pyStartsWith s "profile " = false →
        profileNameOf s = none) ∧
    profileNameOf "sso-session foo" = none ∧
    (∀ (cfg : ParsedConfig) (r : SsoProfile), r ∈ extractSsoProfiles cfg →
        ∃ n, n ∈ cfg.sections.map Prod.fst ∧ profileNameOf n = some r.profile) := by
  refine ⟨?_, ?_, ?_, by decide, ?_⟩
  · intro s h
    subst h
    decide
  · intro s hne hsw
    constructor
    · unfold profileNameOf
      rw [if_neg hne, if_pos hsw]
    · have hp : "profile ".data <+: s.data := List.isPrefixOf_iff_prefix.mp hsw
      obtain ⟨t, ht⟩ := hp
      show "profile ".data ++ s.data.drop 8 = s.data
      rw [← ht]
      have h8 : ("profile ".data).length = 8 := by decide
      rw [← h8, List.drop_left]
  · intro s hne hsw
    unfold profileNameOf
    rw [if_neg hne, if_neg (by simp [hsw])]
  · intro cfg r hr
    rw [mem_extract_iff] at hr
    obtain ⟨n, hmem, hstep⟩ := hr
    unfold extractStep at hstep
    cases hpn : profileNameOf n with
    | none => rw [hpn] at hstep; cases hstep
    | some pn =>
        rw [hpn] at hstep
        dsimp only at hstep
        by_cases hha : hasOption cfg n "sso_start_url" = true
        · rw [if_pos hha] at hstep
          cases hstep
          exact ⟨n, hmem, hpn⟩
        · rw [if_neg hha] at hstep
          cases hstep

/-- C4 (witness): the classifier conjuncts applied to the section names
profile dev (name recomposition included) and sso-session foo. -/
theorem claim4_witness :
    profileNameOf "profile dev" = some (pyDrop "profile dev" 8) ∧
    "profile ".data ++ (pyDrop "profile dev" 8).data = "profile dev".data :=
  claim4_section_name_classifier.2.1 "profile dev" (by decide) (by decide)

/-- C5: every record of the result serializes as an object with exactly the
five keys profile, sso_account_id, sso_role_name, sso_region,
sso_start_url in that order; the profile field is the derived name, each
sso field is the looked-up value of the key of the originating section
(section's own binding, else the DEFAULT section's), and an absent key
serializes as JSON null — never an empty string, never an omitted key. -/
theorem claim5_record_shape (cfg : ParsedConfig) (r : SsoProfile)
    (h : r ∈ extractSsoProfiles cfg) :
    (profileToJObj r).map Prod.fst =
      ["profile", "sso_account_id", "sso_role_name", "sso_region",
       "sso_start_url"] ∧
    lookupA (profileToJObj r) "profile" = some (.str r.profile) ∧
    (∃ n, n ∈ cfg.sections.map Prod.fst ∧ profileNameOf n = some r.profile ∧
      r.sso_account_id = sectGet cfg n "sso_account_id" ∧
      r.sso_role_name = sectGet cfg n "sso_role_name" ∧
      r.sso_region = sectGet cfg n "sso_region" ∧
      r.sso_start_url = sectGet cfg n "sso_start_url") ∧
    lookupA (profileToJObj r) "sso_account_id" = some (jopt r.sso_account_id) ∧
    lookupA (profileToJObj r) "sso_role_name" = some (jopt r.sso_role_name) ∧
    lookupA (profileToJObj r) "sso_region" = some (jopt r.sso_region) ∧
    lookupA (profileToJObj r) "sso_start_url" = some (jopt r.sso_start_url) ∧
    jopt none = JVal.null ∧ (∀ v, jopt (some v) = JVal.str v) := by
  refine ⟨rfl, rfl, ?_, rfl, rfl, rfl, rfl, rfl, fun v => rfl⟩
  rw [mem_extract_iff] at h
  obtain ⟨n, hmem, hstep⟩ := h
  unfold extractStep at hstep
  cases hpn : profileNameOf n with
  | none => rw [hpn] at hstep; cases hstep
  | some pn =>
      rw [hpn] at hstep
      dsimp only at hstep
      by_cases hha : hasOption cfg n "sso_start_url" = true
      · rw [if_pos hha] at hstep
        cases hstep
        exact ⟨n, hmem, hpn, rfl, rfl, rfl, rfl⟩
      · rw [if_neg hha] at hstep
        cases hstep

/-- C5 (witness): the shape theorem applied to the record extracted from
the one-profile document. -/
theorem claim5_witness :
    (profileToJObj (mkSsoProfile cfgOneSso "profile x" "x")).map Prod.fst =
      ["profile", "sso_account_id", "sso_role_name", "sso_region",
       "sso_start_url"] :=
  (claim5_record_shape cfgOneSso (mkSsoProfile cfgOneSso "profile x" "x")
    (by decide)).1

/-- C10: keys of the DEFAULT section are inherited: a profile-shaped
section with no sso_start_url of its own is still emitted when the DEFAULT
section defines sso_start_url, the record's sso_start_url comes from the
DEFAULT section, and every key the section lacks resolves to the DEFAULT
section's binding. -/
theorem claim10_default_inheritance (cfg : ParsedConfig) (n : String)
    (kv : List (String × String)) (pn u : String)
    (hlk : lookupA cfg.sections n = some kv)
    (hpn : profileNameOf n = some pn)
    (hown : lookupA kv "sso_start_url" = none)
    (hdef : lookupA cfg.defaults "sso_start_url" = some u) :
    mkSsoProfile cfg n pn ∈ extractSsoProfiles cfg ∧
    (mkSsoProfile cfg n pn).sso_start_url = some u ∧
    (∀ k, lookupA kv k = none → sectGet cfg n k = lookupA cfg.defaults k) := by
  have hget : ∀ k, lookupA kv k = none →
      sectGet cfg n k = lookupA cfg.defaults k := by
    intro k hk
    unfold sectGet
    rw [hlk]
    dsimp only
    rw [hk]
  have hmem : n ∈ cfg.sections.map Prod.fst :=
    List.mem_map_of_mem Prod.fst (lookupA_mem _ _ _ hlk)
  have hha : hasOption cfg n "sso_start_url" = true := by
    unfold hasOption
    rw [hlk]
    dsimp only
    rw [hown, hdef]
    rfl
  refine ⟨?_, ?_, hget⟩
  · rw [mem_extract_iff]
    refine ⟨n, hmem, ?_⟩
    unfold extractStep
    rw [hpn]
    simp [hha]
  · show sectGet cfg n "sso_start_url" = some u
    rw [hget _ hown, hdef]

/-- C10 (witness): the inheritance theorem applied to the document whose
DEFAULT section carries sso_start_url and sso_region, checking the emitted
record end to end, starting from the raw file text. -/
theorem claim10_witness :
    configRead ["[DEFAULT]", "sso_start_url = https://u", "sso_region = eu",
                "[profile p]", "sso_account_id = 1"] = .ok cfgDefaulted ∧
    mkSsoProfile cfgDefaulted "profile p" "p" ∈ extractSsoProfiles cfgDefaulted ∧
    (mkSsoProfile cfgDefaulted "profile p" "p").sso_start_url =
      some "https://u" ∧
    extractSsoProfiles cfgDefaulted =
      [{ profile := "p", sso_account_id := some "1", sso_role_name := none,
         sso_region := some "eu", sso_start_url := some "https://u" }] := by
  have h := claim10_default_inheritance cfgDefaulted "profile p"
    [("sso_account_id", "1")] "p" "https://u"
    (by decide) (by decide) (by decide) (by decide)
  exact ⟨by decide, h.1, h.2.1, by decide⟩

/-- C2 (counterexample): a file that repeats section profile a is claimed
to succeed with exit code 0, keeping the last occurrence; the strict
parser raises DuplicateSectionError at the repeated header instead, and
the process exits 1 with an ERROR line on standard error and nothing on
standard output. -/
theorem claim2_counterexample :
    configRead ["[profile a]", "sso_start_url = u",
                "[profile a]", "sso_start_url = v"] =
      .error (.duplicateSection "profile a" 3) ∧
    main wDup =
      { exitCode := 1, stdout := [],
        stderr := [parseFailMsg (.duplicateSection "profile a" 3)],
        fsWrites := [] } := by
  decide

/-- C2 (amended): duplicate section names are an error, not last-write-wins:
whenever the reader, on a non-comment header line that is not a
continuation line, matches a section name it has already registered, it
raises DuplicateSectionError; on the duplicated file the process therefore
exits with code 1, an ERROR line on standard error and no standard
output. -/
theorem claim2_duplicate_section_rejected
    (st : ReadState) (lineno : Nat) (line : String) (nm : String)
    (hcm : isCommentL (stripL line.data) = false)
    (hmh : matchHeaderL (stripL line.data) = some nm)
    (hnc : st.optname = none ∨ leadingWsCount line.data ≤ st.indentLevel)
    (hsec : nm ∈ st.sections.map Prod.fst)
    (hadd : nm ∈ st.addedSections) :
    readLine st lineno line = .error (.duplicateSection nm lineno) ∧
    main wDup =
      { exitCode := 1, stdout := [],
        stderr := [parseFailMsg (.duplicateSection "profile a" 3)],
        fsWrites := [] } := by
  refine ⟨?_, by decide⟩
  have hne : stripL line.data ≠ [] := by
    intro h0
    rw [h0] at hmh
    cases hmh
  have hguard : ¬(optnameTruthy st.optname = true ∧ st.cur.isSome = true ∧
      st.indentLevel < leadingWsCount line.data) := by
    rintro ⟨h1, _, h3⟩
    cases hnc with
    | inl h => rw [h] at h1; cases h1
    | inr h => exact absurd h3 (Nat.not_lt.mpr h)
  unfold readLine
  simp only [hcm, Bool.false_eq_true, if_false]
  rw [if_neg hne, if_neg hguard, hmh]
  dsimp only
  rw [if_pos hsec, if_pos hadd]

/-- C2 (witness): the rejection theorem applied at the reader state reached
after the first two lines of the duplicated file, on its third line. -/
theorem claim2_witness :
    readLine stRepeat 3 "[profile a]" =
      .error (.duplicateSection "profile a" 3) :=
  (claim2_duplicate_section_rejected stRepeat 3 "[profile a]" "profile a"
    (by decide) (by decide) (Or.inr (by decide)) (by decide) (by decide)).1

/-- C3 (counterexample): the claim covers every path not referencing an
existing READABLE file; but the code only tests os.path.exists, and
ConfigParser.read silently skips a file it cannot open, so a world whose
config file exists yet is unreadable makes the process exit 0 and print
the empty document — not exit 1 with an ERROR line. -/
theorem claim3_counterexample :
    lookupA wUnreadable.fs (resolveConfigFile none wUnreadable) =
      some ⟨false, ["[profile x]", "sso_start_url = u"]⟩ ∧
    main wUnreadable =
      { exitCode := 0, stdout := ["\x7b\"profiles\": []\x7d"], stderr := [],
        fsWrites := [] } := by
  decide

/-- C3 (amended): for every world whose resolved config path does not
reference an existing file, the process exits with code 1, emits the
single not-found ERROR line to standard error, and writes nothing to
standard output; an existing but unopenable file is instead silently
treated as empty. -/
theorem claim3_missing_file_error (w : World)
    (h : lookupA w.fs (resolveConfigFile none w) = none) :
    main w =
      { exitCode := 1, stdout := [],
        stderr := [notFoundMsg (resolveConfigFile none w)], fsWrites := [] } := by
  unfold main parse_sso_profiles osPathExists
  rw [h]
  rfl

/-- C3 (witness): the amended theorem applied to the world with no file at
the resolved path. -/
theorem claim3_witness :
    main wMissing =
      { exitCode := 1, stdout := [],
        stderr := [notFoundMsg (resolveConfigFile none wMissing)],
        fsWrites := [] } :=
  claim3_missing_file_error wMissing (by decide)

/-- C6: whenever parse_sso_profiles returns the empty list, the process
prints exactly the compact document of an empty profile list on standard
output, nothing on standard error, and exits with status 0. -/
theorem claim6_empty_output (w : World)
    (h : parse_sso_profiles none w = .ok []) :
    main w =
      { exitCode := 0, stdout := ["\x7b\"profiles\": []\x7d"], stderr := [],
        fsWrites := [] } := by
  unfold main
  rw [h]
  decide

/-- C6 (witness): the theorem applied to the world whose config file is
empty. -/
theorem claim6_witness :
    main wEmptyFile =
      { exitCode := 0, stdout := ["\x7b\"profiles\": []\x7d"], stderr := [],
        fsWrites := [] } :=
  claim6_empty_output wEmptyFile (by decide)

/-- C7 (counterexample): the claim states tilde expansion is performed on
the resolved path; but an explicit config_file argument is returned as
given, so resolving the explicit argument with a leading tilde yields the
unexpanded path even though expansion would have changed it. -/
theorem claim7_counterexample :
    resolveConfigFile (some "~/cfg") wPlain = "~/cfg" ∧
    expanduser wPlain.home "~/cfg" = "/home/u/cfg" ∧
    ("~/cfg" : String) ≠ "/home/u/cfg" := by
  decide

/-- C7 (amended): an explicit config_file argument takes precedence and is
used verbatim, with no tilde expansion; otherwise the AWS_CONFIG_FILE
environment variable, or in its absence the default path under the home
directory, is used after tilde expansion, a leading bare tilde component
expanding to the home directory (trailing slashes stripped). -/
theorem claim7_path_resolution (p : String) (w : World) (home : String)
    (rest : List Char) :
    resolveConfigFile (some p) w = p ∧
    resolveConfigFile none w =
      expanduser w.home ((lookupA w.env "AWS_CONFIG_FILE").getD "~/.aws/config") ∧
    expanduser home (String.mk ('~' :: '/' :: rest)) =
      String.mk (rstripSlashL home.data ++ '/' :: rest) := by
  refine ⟨rfl, rfl, ?_⟩
  show (if ('/' :: rest : List Char) = [] ∨ ('/' :: rest).head? = some '/' then
          if rstripSlashL home.data ++ '/' :: rest = [] then "/"
          else String.mk (rstripSlashL home.data ++ '/' :: rest)
        else String.mk ('~' :: '/' :: rest)) =
      String.mk (rstripSlashL home.data ++ '/' :: rest)
  rw [if_pos (show ('/' :: rest : List Char) = [] ∨
        ('/' :: rest).head? = some '/' from Or.inr rfl),
      if_neg (by simp)]

/-- C8: for every world whose resolved path names an openable file whose
lines the parser rejects, the process prints the single ERROR line
carrying the parser's message to standard error, exits with code 1, and
writes nothing to standard output. -/
theorem claim8_parse_error_reporting (w : World) (entry : FileEntry)
    (e : ParseErr)
    (hfind : lookupA w.fs (resolveConfigFile none w) = some entry)
    (hread : entry.readable = true)
    (hparse : configRead entry.lines = .error e) :
    main w =
      { exitCode := 1, stdout := [], stderr := [parseFailMsg e],
        fsWrites := [] } := by
  unfold main parse_sso_profiles osPathExists configReadFile
  rw [hfind]
  simp [hread, hparse]

/-- C8 (witness): the reporting theorem applied to the world whose config
file starts with content before any section header. -/
theorem claim8_witness :
    main wBadFile =
      { exitCode := 1, stdout := [],
        stderr := [parseFailMsg (.missingSectionHeader 1 "no header")],
        fsWrites := [] } :=
  claim8_parse_error_reporting wBadFile ⟨true, ["no header"]⟩
    (.missingSectionHeader 1 "no header") (by decide) (by decide) (by decide)

/-- C9: the run is a pure, deterministic read: its outcome depends only on
the AWS_CONFIG_FILE variable, the home directory and the file found at the
resolved path — two runs over worlds agreeing there produce identical
outcomes (same records, same order, identical serialized bytes) — and no
run performs any file write. -/
theorem claim9_pure_read (w1 w2 : World)
    (henv : lookupA w1.env "AWS_CONFIG_FILE" = lookupA w2.env "AWS_CONFIG_FILE")
    (hhome : w1.home = w2.home)
    (hfile : lookupA w1.fs (resolveConfigFile none w1) =
             lookupA w2.fs (resolveConfigFile none w2)) :
    parse_sso_profiles none w1 = parse_sso_profiles none w2 ∧
    main w1 = main w2 ∧
    (main w1).fsWrites = [] := by
  have hpath : resolveConfigFile none w1 = resolveConfigFile none w2 := by
    unfold resolveConfigFile
    rw [henv, hhome]
  have hparse : parse_sso_profiles none w1 = parse_sso_profiles none w2 := by
    unfold parse_sso_profiles osPathExists configReadFile
    rw [hfile, hpath]
  refine ⟨hparse, ?_, ?_⟩
  · unfold main
    rw [hparse]
  · unfold main
    cases hp : parse_sso_profiles none w1 with
    | ok profiles =>
        by_cases h : profiles = [] <;> simp [h]
    | error out =>
        unfold parse_sso_profiles at hp
        dsimp only
        split at hp
        · cases hp
          rfl
        · split at hp
          · cases hp
            rfl
          · cases hp

/-- C9 (witness): the purity theorem applied to two worlds agreeing on the
variable, the home directory and the config file, but differing in an
unrelated variable and an unrelated file. -/
theorem claim9_witness :
    parse_sso_profiles none wOne = parse_sso_profiles none wTwo ∧
    main wOne = main wTwo ∧
    (main wOne).fsWrites = [] :=
  claim9_pure_read wOne wTwo (by decide) (by decide) (by decide)

end AwsSso
